import Mathlib

/-
Verification of the route-to-OpenAPI translation engine in
src/lib/swagger/paths.js. The engine is embedded shallowly: the
paths.js functions are translated line by line, while the external
collaborators (Utilities, Properties, Parameters, Responses), which are
not part of this repository snapshot, are modelled from the spec and
marked as such in their doc comments. All definitions are executable.
-/

namespace Kox

/-! ## Character and string helpers (total, kernel-computable) -/

/-- True when the second list is a prefix of the first. -/
def startsWithList : List Char → List Char → Bool
  | _, [] => true
  | [], _ :: _ => false
  | c :: s, p :: ps => c == p && startsWithList s ps

/-- True when the second list occurs as a contiguous sublist of the first. -/
def containsList (sub : List Char) : List Char → Bool
  | [] => startsWithList [] sub
  | c :: t => startsWithList (c :: t) sub || containsList sub t

/-- Replaces the first occurrence of a nonempty pattern, as JS
String.replace with a string pattern does. -/
def replaceFirstList (pat repl : List Char) : List Char → List Char
  | [] => []
  | c :: t =>
    if pat ≠ [] && startsWithList (c :: t) pat then repl ++ (c :: t).drop pat.length
    else c :: replaceFirstList pat repl t

def strStartsWith (s p : String) : Bool := startsWithList s.data p.data

def strEndsWith (s p : String) : Bool := startsWithList s.data.reverse p.data.reverse

def strContains (s sub : String) : Bool := containsList sub.data s.data

def strReplaceFirst (s pat repl : String) : String :=
  ⟨replaceFirstList pat.data repl.data s.data⟩

/-- ASCII lower-casing of one character, as JS toLowerCase on ASCII input. -/
def lowerChar (c : Char) : Char :=
  if 65 ≤ c.toNat && c.toNat ≤ 90 then Char.ofNat (c.toNat + 32) else c

/-- ASCII upper-casing of one character, as JS toUpperCase on ASCII input. -/
def upperChar (c : Char) : Char :=
  if 97 ≤ c.toNat && c.toNat ≤ 122 then Char.ofNat (c.toNat - 32) else c

def strToLower (s : String) : String := ⟨s.data.map lowerChar⟩

def strToUpper (s : String) : String := ⟨s.data.map upperChar⟩

/-! ## Diagnostics

settings.log(tags, message) collects a diagnostic; the embedding threads an
explicit list of logged diagnostics instead of a logging side effect. -/

structure Diagnostic where
  tags : List String
  msg : String
deriving DecidableEq, Repr

/-! ## The schema model

A canonical model of the Joi schema values as far as paths.js observes
them: a schema is a structured object with named child fields, a custom
validation function, or some other childless schema. A child field
carries exactly the data the parameter projection needs. -/

structure SchemaField where
  name : String
  type : String
  required : Option Bool
  enum : Option (List String)
  default : Option String
  /-- True when the serialized field carries the swaggerType file marker
  (the meta swaggerType: file annotation searched for by hasFileType). -/
  fileType : Bool
deriving DecidableEq, Repr

inductive JoiSchema where
  /-- A structured object schema: optional label and named child fields. -/
  | object (label : Option String) (children : List SchemaField)
  /-- A custom validation function (Joi.func or a plain function). -/
  | func
  /-- Any other schema without child properties (string, number, ...). -/
  | primitive (type : String)
deriving DecidableEq, Repr

/-- Joi.object(\x7b Hidden Model : Joi.string() \x7d), the placeholder substituted
for query/header function validators (line 87). -/
def hiddenModelPlaceholder : JoiSchema :=
  .object none [⟨"Hidden Model", "string", none, none, none, false⟩]

/-- Joi.object().label(Hidden Model), the placeholder substituted for payload
function validators (line 85). -/
def hiddenModelLabel : JoiSchema := .object (some "Hidden Model") []

/-! ## Output model -/

/-- One OpenAPI parameter object, as produced by the Parameters collaborator:
at least name, in, required?, type, plus the enum/default data the accept
header rule reads. The field after name embeds the JS property named in. -/
structure Param where
  name : String
  «in» : String
  required : Option Bool
  type : String
  enum : Option (List String)
  default : Option String
deriving DecidableEq, Repr

/-- Modelled from the spec: the Responses collaborator builds the responses
map from the declared response schemas; it is opaque to this core, so the
model records the arguments the core hands it (line 247). -/
structure ResponsesResult where
  userDefinedSchemas : Option JoiSchema
  defaultSchema : Option JoiSchema
  statusSchemas : Option JoiSchema
  useDefinitions : Bool
  isAlt : Bool
deriving DecidableEq, Repr

def responsesBuild (userDefinedSchemas defaultSchema statusSchemas : Option JoiSchema)
    (useDefinitions isAlt : Bool) : ResponsesResult :=
  ⟨userDefinedSchemas, defaultSchema, statusSchemas, useDefinitions, isAlt⟩

/-- The per-path-per-method operation object. Optional fields are Option
valued; an absent JS property is none. parameters is kept as a plain list:
the model does not distinguish an emitted empty parameter list from an
absent one. -/
structure Operation where
  summary : Option String
  operationId : String
  description : Option String
  parameters : List Param
  consumes : Option (List String)
  produces : Option (List String)
  tags : Option (List String)
  security : Option (List String)
  responses : ResponsesResult
  xOrder : Option Nat
  deprecated : Option Bool
deriving DecidableEq, Repr

/-- The output document: paths map from path string to a map from lowercase
method to operation, both as insertion-ordered association lists. The
definitions and x-alt-definitions maps are populated by the external
Definitions/Properties collaborators and are not modelled. -/
structure Swagger where
  paths : List (String × List (String × Operation))
deriving DecidableEq, Repr

/-! ## Input model -/

/-- A route description: a single string or a multi-line sequence. -/
inductive Description where
  | str (s : String)
  | arr (lines : List String)
deriving DecidableEq, Repr

/-- One configured path replacement rule, applied when its replaceIn tag is
among the requested positions. Modelled from the spec (Utilities
collaborator, path-placeholder replacement rules). -/
structure PathReplacement where
  replaceIn : String
  pattern : String
  replacement : String
deriving DecidableEq, Repr

/-- The plugin settings read by paths.js. settings.log is modelled by the
explicit diagnostic lists returned by the functions below. -/
structure Settings where
  basePath : String
  /-- The configured default payload encoding kind (a string, e.g. json). -/
  payloadType : String
  consumes : Option (List String)
  produces : Option (List String)
  acceptToProduce : Bool
  pathReplacements : List PathReplacement
deriving Repr

structure Validate where
  query : Option JoiSchema := none
  params : Option JoiSchema := none
  headers : Option JoiSchema := none
  payload : Option JoiSchema := none
deriving DecidableEq, Repr

structure ResponseDecl where
  schema : Option JoiSchema := none
  status : Option JoiSchema := none
deriving DecidableEq, Repr

/-- The raw route descriptor handed to build. The documented input field for
media types is consumes; the source at line 63 reads the key comsumes
(note the source misspelling), which is kept as a separate field so the read
can be embedded faithfully (a spec-shaped input never sets it). -/
structure RouteDescriptor where
  path : String
  method : String
  id : Option String := none
  description : Option Description := none
  summary : Option String := none
  tags : Option (List String) := none
  validate : Validate := {}
  response : ResponseDecl := {}
  comsumes : Option (List String) := none
  consumes : Option (List String) := none
  produces : Option (List String) := none
  responses : Option JoiSchema := none
  payloadType : Option String := none
  security : Option (List String) := none
  order : Option Nat := none
  deprecated : Option Bool := none
  group : Option (List String) := none
deriving DecidableEq, Repr

/-- The normalized route shape produced by build (lines 50-71) and consumed
by buildRoutes. build never copies a notes property onto it; the field
exists because line 139 reads route.notes, which a direct caller of
buildRoutes could have set. -/
structure RouteData where
  path : String
  method : String
  id : Option String := none
  description : Option Description := none
  summary : Option String := none
  tags : Option (List String) := none
  queryParams : Option JoiSchema := none
  pathParams : Option JoiSchema := none
  payloadParams : Option JoiSchema := none
  headerParams : Option JoiSchema := none
  responseSchema : Option JoiSchema := none
  responseStatus : Option JoiSchema := none
  consumes : Option (List String) := none
  produces : Option (List String) := none
  responses : Option JoiSchema := none
  payloadType : Option String := none
  security : Option (List String) := none
  order : Option Nat := none
  deprecated : Option Bool := none
  groups : Option (List String) := none
  notes : Option (List String) := none
deriving DecidableEq, Repr

/-! ## JS truthiness helpers

JS x or null coerces falsy values to null; which values are falsy depends
on the type. Arrays and objects (even empty ones) are truthy, so Option
pass-through models them and no helper is needed. -/

/-- JS v or null at string type: the empty string is falsy. -/
def jsOrNullStr (v : Option String) : Option String :=
  match v with
  | some "" => none
  | v => v

/-- JS v or null at number type: 0 is falsy. -/
def jsOrNullNat (v : Option Nat) : Option Nat :=
  match v with
  | some 0 => none
  | v => v

/-- JS v or null at boolean type: false is falsy. -/
def jsOrNullBool (v : Option Bool) : Option Bool :=
  match v with
  | some true => some true
  | _ => none

/-! ## External collaborators, modelled from the spec -/

/-- Modelled from the spec: Utilities.isFunction, the schema-shape predicate
for a callable validator rather than a structured schema. -/
def isFunction : Option JoiSchema → Bool
  | some .func => true
  | _ => false

/-- Modelled from the spec: Utilities.toJoiObject coerces a schema into the
canonical structured form, a no-op when already structured; on the canonical
JoiSchema model it is the identity. -/
def toJoiObject (s : Option JoiSchema) : Option JoiSchema := s

/-- Modelled from the spec: Utilities.hasJoiChildren, true exactly when the
schema is a structured object with at least one named child property. -/
def hasJoiChildren : Option JoiSchema → Bool
  | some (.object _ children) => !children.isEmpty
  | _ => false

/-- Modelled from the spec: Utilities.replaceInPath applies the configured
path replacement rules whose replaceIn tag is among the requested
positions, each replacing its first occurrence in the path. -/
def replaceInPath (path : String) (positions : List String)
    (pathReplacements : List PathReplacement) : String :=
  pathReplacements.foldl
    (fun p r => if positions.contains r.replaceIn then strReplaceFirst p r.pattern r.replacement else p)
    path

/-- Modelled from the spec: Utilities.createId derives a deterministic
operation id from method and path. -/
def createId (method path : String) : String := strToLower method ++ path

/-- Modelled from the spec: Utilities.sortFirstItem reorders a list so the
preferred element (if any) appears first, preserving the relative order of
the remaining elements. -/
def sortFirstItem (array : List String) (firstItem : Option String) : List String :=
  match firstItem with
  | some d => d :: array.filter (fun x => x ≠ d)
  | none => array

/-- Modelled from the spec: the parameter object built for one child field of
a structured schema at a given location. -/
def projectField (location : String) (f : SchemaField) : Param :=
  { name := f.name, «in» := location, required := f.required, type := f.type,
    enum := f.enum, default := f.default }

/-- Modelled from the spec: the composition of Properties.parseProperty and
Parameters.fromProperties. The body location yields one combined body
parameter; every other location yields one parameter per child field, in
schema field order. The useDefinitions/isAlt flags only steer the shared
definitions maps, which are outside this model. -/
def fromProperties (s : JoiSchema) (location : String)
    (_useDefinitions _isAlt : Bool) : List Param :=
  if location = "body" then
    [{ name := "body", «in» := "body", required := none, type := "object",
       enum := none, default := none }]
  else
    match s with
    | .object _ children => children.map (projectField location)
    | .func => []
    | .primitive _ => []

/-- Modelled from the spec: Utilities.deleteEmptyProperties removes every
property holding an empty array, empty object, null or undefined. On the
typed Operation record the Option list fields are the prunable ones; a
boolean false and non-empty values are preserved. -/
def pruneEmptyList {α : Type} (v : Option (List α)) : Option (List α) :=
  match v with
  | some [] => none
  | v => v

def deleteEmptyProperties (out : Operation) : Operation :=
  { out with
    consumes := pruneEmptyList out.consumes
    produces := pruneEmptyList out.produces
    tags := pruneEmptyList out.tags
    security := pruneEmptyList out.security }

/-! ## paths.js internals, embedded from the source -/

/-- Lines 290-292: internals.overload, JS priority or base (arrays are
truthy even when empty, so Option presence models the test). -/
def overload (base priority : Option (List String)) : Option (List String) :=
  priority <|> base

/-- Lines 300-303: internals.hasFileType serializes the payload schema with
JSON.stringify and searches the string for the swaggerType marker.
SchemaField.fileType models the presence of that marker inside one field
of the serialization; a missing payload gives an undefined routeString. -/
def hasFileType (route : RouteData) : Bool :=
  match route.payloadParams with
  | some (.object _ children) => children.any (fun f => f.fileType)
  | _ => false

/-- Lines 311-313: internals.cleanPathParameters (its only call site, line
205, is commented out in the source). -/
def cleanPathParameters (path : String) : String :=
  strReplaceFirst path "?\x7d" "\x7d"

/-- Lines 323-329: internals.removeBasePath strips the configured base path
prefix, then re-applies the endpoints path replacements. -/
def removeBasePath (path basePath : String)
    (pathReplacements : List PathReplacement) : String :=
  if basePath ≠ "/" && strStartsWith path basePath then
    replaceInPath (strReplaceFirst path basePath "") ["endpoints"] pathReplacements
  else path

/-- Lines 337-345: internals.hasContentTypeHeader, true when some assembled
parameter is a header parameter whose lowercased name is content-type. -/
def hasContentTypeHeader (parameters : List Param) : Bool :=
  parameters.any (fun param => param.«in» == "header" && strToLower param.name == "content-type")

/-- Lines 356-369: getSwaggerStructures parses a non-null schema through the
Properties and Parameters collaborators; only the parameters component is
consumed by buildRoutes, so the model returns it directly (a null schema
yields the default empty parameter list, lines 371-376). -/
def getSwaggerStructures (joiObj : Option JoiSchema) (parameterType : String)
    (useDefinitions isAlt : Bool) : List Param :=
  match joiObj with
  | some s => fromProperties s parameterType useDefinitions isAlt
  | none => []

/-- Lines 378-382: testParameterError logs an error when a schema was set
but is not an object with child properties. -/
def testParameterError (joiObj : Option JoiSchema) (parameterType path : String) :
    List Diagnostic :=
  if joiObj.isSome && !hasJoiChildren joiObj then
    [⟨["validation", "error"],
      "The " ++ path ++ " route " ++ parameterType ++
      " parameter was set, but not as a Joi.object() with child properties"⟩]
  else []

/-- Line 83: the warning logged for a query/header/payload function
validator. -/
def functionValidatorWarning : Diagnostic :=
  ⟨["validation", "warning"],
   "Using a Joi.function for a query, header or payload is not supported."⟩

/-- Line 90: the error logged for a path-params function validator. -/
def functionValidatorParamsError : Diagnostic :=
  ⟨["validation", "error"],
   "Using a Joi.function for a params is not supported and has been removed."⟩

/-- Lines 80-96: the body of the per-property forEach in build, swapping a
custom validation function for a placeholder (query/header/payload, with a
warning) or for null (path params, with an error). -/
def swapFunctionValidator (property : String) (schema : Option JoiSchema) :
    Option JoiSchema × List Diagnostic :=
  if isFunction schema then
    if property ≠ "pathParams" then
      (if property = "payloadParams" then some hiddenModelLabel else some hiddenModelPlaceholder,
       [functionValidatorWarning])
    else
      (none, [functionValidatorParamsError])
  else (toJoiObject schema, [])

/-- Lines 49-97: the route normalizer, building routeData from one raw
route descriptor, with the diagnostics it logs. Line 63 reads the key
comsumes from the input (the source misspelling), and no notes property is
copied. The forEach at line 75 visits queryParams, pathParams,
headerParams, payloadParams in that order, which fixes the log order. -/
def normalizeRoute (settings : Settings) (route : RouteDescriptor) :
    RouteData × List Diagnostic :=
  let q := swapFunctionValidator "queryParams" route.validate.query
  let p := swapFunctionValidator "pathParams" route.validate.params
  let h := swapFunctionValidator "headerParams" route.validate.headers
  let b := swapFunctionValidator "payloadParams" route.validate.payload
  ({ path := replaceInPath route.path ["endpoints"] settings.pathReplacements
     method := strToUpper route.method
     id := route.id
     description := route.description
     summary := route.summary
     tags := route.tags
     queryParams := q.1
     pathParams := p.1
     payloadParams := b.1
     headerParams := h.1
     responseSchema := route.response.schema
     responseStatus := route.response.status
     consumes := route.comsumes
     produces := route.produces
     responses := route.responses
     payloadType := jsOrNullStr route.payloadType
     security := route.security
     order := jsOrNullNat route.order
     deprecated := jsOrNullBool route.deprecated
     groups := route.group
     notes := none },
   q.2 ++ p.2 ++ h.2 ++ b.2)

/-! ## The operation builder (buildRoutes, lines 109-270) -/

/-- Line 134: the resolved output path for one route. -/
def routePath (settings : Settings) (route : RouteData) : String :=
  removeBasePath route.path settings.basePath settings.pathReplacements

/-- Line 146: the effective payload encoding kind, internals.overload of the
configured default (always a string) with the per-route value. -/
def payloadTypeOf (settings : Settings) (route : RouteData) : String :=
  (jsOrNullStr route.payloadType).getD settings.payloadType

/-- Lines 148-163: the payload section. Returns the payload-derived
parameters, the value of out.consumes after this section (initially the
empty list from line 131, set to the form media type on the non-json
branch), and the diagnostics logged. -/
def buildPayloadParameters (route : RouteData) (payloadType path : String) :
    List Param × Option (List String) × List Diagnostic :=
  let payloadJoi := route.payloadParams
  if strToLower payloadType = "json" then
    (getSwaggerStructures payloadJoi "body" true false, some [], [])
  else
    if hasJoiChildren payloadJoi then
      (getSwaggerStructures payloadJoi "formData" false false,
       some ["application/x-www-form-urlencoded"], [])
    else
      ([], some ["application/x-www-form-urlencoded"],
       testParameterError payloadJoi "payload form-urlencoded" path)

/-- Lines 186-198: the regular expression /:name($|/) built from one path
parameter name, tested against the resolved path. For a name free of
regular-expression metacharacters this is: the path ends with /:name or
contains /:name/ somewhere. -/
def pathColonTest (name path : String) : Bool :=
  strEndsWith path ("/:" ++ name) || strContains path ("/:" ++ name ++ "/")

/-- Lines 184-195: the per-item body of the path parameter forEach. When no
explicit required flag was set, required becomes true exactly when the
colon placeholder test matches; afterwards an explicit required: false is
deleted. -/
def setPathItemRequired (path : String) (item : Param) : Param :=
  let item1 :=
    if item.required = none then
      (if pathColonTest item.name path then { item with required := some true } else item)
    else item
  if item1.required = some false then { item1 with required := none } else item1

/-- Line 197: the spec-tolerance warning for an optional path parameter. -/
def optionalPathWarning (path name : String) : Diagnostic :=
  ⟨["validation", "warning"],
   "The " ++ path ++ " params parameter \x7b" ++ name ++
   "\x7d is set as optional. This will work in the UI, but is invalid in the swagger spec"⟩

/-- Lines 179-202: the path parameter section. After the required fix-up an
item never carries required: false, so the JS test !item.required at line
196 is embedded as required different from some true. -/
def buildPathParameters (pathJoi : Option JoiSchema) (path : String) :
    List Param × List Diagnostic :=
  if hasJoiChildren pathJoi then
    let ps := (getSwaggerStructures pathJoi "path" false false).map (setPathItemRequired path)
    (ps, ps.filterMap (fun item =>
      if item.required = some true then none else some (optionalPathWarning path item.name)))
  else ([], testParameterError pathJoi "params" path)

/-- Lines 207-213: the header parameter section, before the accept rule. -/
def buildHeaderParameters (headerJoi : Option JoiSchema) (path : String) :
    List Param × List Diagnostic :=
  if hasJoiChildren headerJoi then (getSwaggerStructures headerJoi "header" false false, [])
  else ([], testParameterError headerJoi "headers" path)

/-- Lines 216-224: the filter callback over the header parameters. A header
named accept (case-insensitive) that declares an enum is removed and
out.produces is assigned from its enum; with several such headers the JS
assignment of the last visited one wins, which the tail-priority choice
models. -/
def acceptFilter : List Param → List Param × Option (List String)
  | [] => ([], none)
  | h :: t =>
    let rest := acceptFilter t
    if strToLower h.name = "accept" then
      match h.enum with
      | some e => (rest.1, rest.2 <|> some (sortFirstItem e h.default))
      | none => (h :: rest.1, rest.2)
    else (h :: rest.1, rest.2)

/-- Lines 215-225: the accept-to-produces rule runs only when the
configuration flag is exactly true. -/
def applyAcceptToProduce (settings : Settings) (headers : List Param) :
    List Param × Option (List String) :=
  if settings.acceptToProduce = true then acceptFilter headers else (headers, none)

/-- A parameter the accept rule removes: named accept (case-insensitive)
and declaring an enum. -/
def isAcceptEnum (p : Param) : Bool :=
  (strToLower p.name == "accept") && p.enum.isSome

/-- Lines 227-233: the query parameter section. -/
def buildQueryParameters (queryJoi : Option JoiSchema) (path : String) :
    List Param × List Diagnostic :=
  if hasJoiChildren queryJoi then (getSwaggerStructures queryJoi "query" false false, [])
  else ([], testParameterError queryJoi "query" path)

/-- The value of out.consumes after lines 148-177: the payload section
default, overridden to multipart by file detection (lines 166-168), in turn
overridden by an explicit settings or route value (lines 171-173). -/
def routeConsumes0 (settings : Settings) (route : RouteData) : Option (List String) :=
  if settings.consumes.isSome || route.consumes.isSome then
    overload settings.consumes route.consumes
  else if hasFileType route then some ["multipart/form-data"]
  else (buildPayloadParameters route (payloadTypeOf settings route) (routePath settings route)).2.1

/-- The value of out.produces after lines 175-177 (initially the empty list
from line 132). -/
def routeProduces0 (settings : Settings) (route : RouteData) : Option (List String) :=
  if settings.produces.isSome || route.produces.isSome then
    overload settings.produces route.produces
  else some []

/-- The produces override derived from an accept header enum, when any
(line 219). -/
def routeAcceptProduces (settings : Settings) (route : RouteData) : Option (List String) :=
  (applyAcceptToProduce settings
    (buildHeaderParameters route.headerParams (routePath settings route)).1).2

/-- Line 139: out.description. When route.description is an array the source
joins route.notes, a property build never sets; with notes absent the JS
member access throws a TypeError, embedded as the error case. -/
def routeDescription (route : RouteData) : Except String (Option String) :=
  match route.description with
  | some (.arr _) =>
    match route.notes with
    | some notes => .ok (some (String.intercalate "<br/><br/>" notes))
    | none => .error "TypeError: route.notes is undefined"
  | some (.str s) => .ok (some s)
  | none => .ok none

/-- Lines 124-265: the per-route forEach body of buildRoutes, after the
description at line 139 has been evaluated. Returns the resolved path, the
lowercased method, the pruned operation object, and the diagnostics this
route logs (payload section, then path, then header, then query — the
source order). -/
def buildRouteCore (settings : Settings) (route : RouteData)
    (description : Option String) : String × String × Operation × List Diagnostic :=
  let path := routePath settings route
  let payload := buildPayloadParameters route (payloadTypeOf settings route) path
  let pathSection := buildPathParameters route.pathParams path
  let hdr := buildHeaderParameters route.headerParams path
  let headerAccept := applyAcceptToProduce settings hdr.1
  let query := buildQueryParameters route.queryParams path
  let parameters := headerAccept.1 ++ pathSection.1 ++ query.1 ++ payload.1
  let consumes1 :=
    if hasContentTypeHeader parameters then none else routeConsumes0 settings route
  let produces1 :=
    match routeAcceptProduces settings route with
    | some p => some p
    | none => routeProduces0 settings route
  let out : Operation :=
    { summary := route.summary
      operationId := (jsOrNullStr route.id).getD (createId route.method route.path)
      description := description
      parameters := parameters
      consumes := consumes1
      produces := produces1
      tags := route.tags <|> route.groups
      security := route.security
      responses := responsesBuild route.responses route.responseSchema route.responseStatus
        true false
      xOrder := route.order
      deprecated := route.deprecated }
  (path, strToLower route.method, deleteEmptyProperties out, payload.2.2 ++ pathSection.2 ++ hdr.2 ++ query.2)

/-- One route of the buildRoutes forEach: evaluating line 139 may throw. -/
def buildRoute (settings : Settings) (route : RouteData) :
    Except String (String × String × Operation × List Diagnostic) :=
  (routeDescription route).map (buildRouteCore settings route)

/-- Ordered association-list lookup, as JS object property read. -/
def assoc {α : Type} : List (String × α) → String → Option α
  | [], _ => none
  | (k2, v) :: t, k => if k2 = k then some v else assoc t k

/-- Ordered association-list assignment, as JS object property write: an
existing key keeps its position, a new key is appended. -/
def assocSet {α : Type} : List (String × α) → String → α → List (String × α)
  | [], k, v => [(k, v)]
  | (k2, v2) :: t, k, v => if k2 = k then (k2, v) :: t else (k2, v2) :: assocSet t k v

/-- Lines 262-265: insert one built operation into the paths object, keyed
by resolved path then lowercase method; an existing entry is overwritten. -/
def setPathOp (paths : List (String × List (String × Operation)))
    (path method : String) (out : Operation) : List (String × List (String × Operation)) :=
  assocSet paths path (assocSet ((assoc paths path).getD []) method out)

def buildRoutesAux (settings : Settings) :
    List RouteData → Swagger × List Diagnostic → Except String (Swagger × List Diagnostic)
  | [], acc => .ok acc
  | r :: rest, acc =>
    match buildRoute settings r with
    | .error e => .error e
    | .ok t =>
      buildRoutesAux settings rest
        ({ paths := setPathOp acc.1.paths t.1 t.2.1 t.2.2.1 }, acc.2 ++ t.2.2.2)

/-- Lines 109-270: buildRoutes over a normalized route list. The shared
definitions maps and their per-call caches (lines 110-122) belong to the
external collaborators and are not modelled. -/
def buildRoutes (settings : Settings) (routes : List RouteData) :
    Except String (Swagger × List Diagnostic) :=
  buildRoutesAux settings routes ({ paths := [] }, [])

/-- Lines 48-101: build normalizes every route (logging as it goes), then
hands the normalized list to buildRoutes. -/
def build (settings : Settings) (routes : List RouteDescriptor) :
    Except String (Swagger × List Diagnostic) :=
  let routesData := routes.map (normalizeRoute settings)
  match buildRoutes settings (routesData.map (fun p => p.1)) with
  | .error e => .error e
  | .ok (sw, lg) => .ok (sw, (routesData.map (fun p => p.2)).flatten ++ lg)

/-! ## Result accessors used by the theorems -/

def okOf {α : Type} : Except String α → Option α
  | .ok a => some a
  | .error _ => none

def errorOf {α : Type} : Except String α → Option String
  | .ok _ => none
  | .error e => some e

def isOk {α : Type} (x : Except String α) : Bool := (okOf x).isSome

/-- The operation component of one buildRouteCore result. -/
def outOp (t : String × String × Operation × List Diagnostic) : Operation := t.2.2.1

/-- The operation of the first method of the first path of a built document. -/
def firstOp (x : Except String (Swagger × List Diagnostic)) : Option Operation :=
  match okOf x with
  | some (sw, _) =>
    match sw.paths with
    | (_, (_, op) :: _) :: _ => some op
    | _ => none
  | none => none

/-- The paths-map key one route resolves to: resolved path and lowercase
method. -/
def routeKey (settings : Settings) (route : RouteData) : String × String :=
  (routePath settings route, strToLower route.method)

/-- The diagnostics one route logs during buildRoutes. -/
def routeLog (settings : Settings) (route : RouteData) : List Diagnostic :=
  match buildRoute settings route with
  | .ok t => t.2.2.2
  | .error _ => []

/-! ## Concrete fixtures for counterexamples and witnesses -/

/-- A minimal configuration: root base path, json default payload kind, no
global consumes/produces, accept-to-produce off, no path replacements. -/
def cfg0 : Settings :=
  { basePath := "/", payloadType := "json", consumes := none, produces := none,
    acceptToProduce := false, pathReplacements := [] }

/-- cfg0 with the accept-to-produce flag enabled. -/
def cfgA : Settings := { cfg0 with acceptToProduce := true }

/-- A path schema field named id with no explicit required flag. -/
def idField : SchemaField := ⟨"id", "string", none, none, none, false⟩

/-- C1 input: hapi-style template /item/\x7bid\x7d with path schema field id. -/
def rdescC1 : RouteDescriptor :=
  { path := "/item/\x7bid\x7d", method := "get",
    validate := { params := some (.object none [idField]) } }

/-- C2 input: a spec-shaped route declaring a per-route consumes list. -/
def rdescC2 : RouteDescriptor :=
  { path := "/c", method := "get", consumes := some ["text/plain"] }

/-- C3 failing input: a route whose description is a multi-line sequence. -/
def rdescC3 : RouteDescriptor :=
  { path := "/d", method := "get", description := some (.arr ["line one", "line two"]) }

/-- C3 companion: the same route with every validator a custom function. -/
def rdescC3fn : RouteDescriptor :=
  { path := "/d", method := "get", description := some (.str "plain"),
    validate := { query := some .func, params := some .func,
                  headers := some .func, payload := some .func } }

/-- C4 failing input: an array description. -/
def rdescC4 : RouteDescriptor :=
  { path := "/e", method := "get", description := some (.arr ["x", "y"]) }

/-- C4 companion: a plain string description. -/
def rdescC4str : RouteDescriptor :=
  { path := "/e", method := "get", description := some (.str "as-is text") }

/-- C4 companion: a normalized route carrying both an array description and
a notes list, as only a direct buildRoutes caller could supply. -/
def rdNotesC4 : RouteData :=
  { path := "/e", method := "GET", description := some (.arr ["x", "y"]),
    notes := some ["n1", "n2"] }

/-- C5 witness input: every validator a custom function. -/
def rdescC5 : RouteDescriptor :=
  { path := "/f", method := "post",
    validate := { query := some .func, params := some .func,
                  headers := some .func, payload := some .func } }

/-- C6 witness input: a normalized route with all four schema kinds. -/
def rdC6 : RouteData :=
  { path := "/g/:id", method := "POST",
    headerParams := some (.object none [⟨"x-token", "string", none, none, none, false⟩]),
    pathParams := some (.object none [idField]),
    queryParams := some (.object none [⟨"q", "string", none, none, none, false⟩]),
    payloadParams := some (.object none [⟨"body field", "string", none, none, none, false⟩]) }

/-- C7 witness input: a header schema declaring Content-Type. -/
def rdC7 : RouteData :=
  { path := "/h", method := "POST",
    headerParams := some (.object none [⟨"Content-Type", "string", none, none, none, false⟩]) }

/-- C8 counterexample input: an explicit deprecated: false. -/
def rdescC8 : RouteDescriptor :=
  { path := "/i", method := "get", deprecated := some false }

/-- An accept header parameter with enum [a, b] and default b. -/
def acceptEnumParam : Param :=
  { name := "accept", «in» := "header", required := none, type := "string",
    enum := some ["a", "b"], default := some "b" }

/-- A header parameter unrelated to the accept rule. -/
def xKeyParam : Param :=
  { name := "x-api-key", «in» := "header", required := none, type := "string",
    enum := none, default := none }

/-- C9 witness input: a header schema with an api-key field and an accept
field carrying enum [a, b] and default b. -/
def rdC9 : RouteData :=
  { path := "/j", method := "GET",
    headerParams := some (.object none
      [⟨"x-api-key", "string", none, none, none, false⟩,
       ⟨"accept", "string", none, some ["a", "b"], some "b", false⟩]) }

/-- C10 witness inputs: two normalized routes with the same path and
method but different summaries. -/
def rdColl1 : RouteData := { path := "/k", method := "GET", summary := some "first" }

def rdColl2 : RouteData := { path := "/k", method := "GET", summary := some "second" }

/-! ## Theorems -/

/-- C6: for every route (and any evaluated description), the emitted
parameter list is exactly the header parameters (after the accept rule),
then the path parameters, then the query parameters, then the
payload-derived body or formData parameters, independently of the order the
schemas were declared in. -/
theorem c6_parameter_order (s : Settings) (r : RouteData) (desc : Option String) :
    (outOp (buildRouteCore s r desc)).parameters
      = (applyAcceptToProduce s (buildHeaderParameters r.headerParams (routePath s r)).1).1
        ++ (buildPathParameters r.pathParams (routePath s r)).1
        ++ (buildQueryParameters r.queryParams (routePath s r)).1
        ++ (buildPayloadParameters r (payloadTypeOf s r) (routePath s r)).1 := rfl

/-- C7: when the assembled parameter list contains a header parameter whose
lowercased name is content-type, the emitted operation has no consumes
field, whatever the payload/file detection or overrides computed. -/
theorem c7_content_type_header_removes_consumes (s : Settings) (r : RouteData)
    (desc : Option String)
    (h : hasContentTypeHeader (outOp (buildRouteCore s r desc)).parameters = true) :
    (outOp (buildRouteCore s r desc)).consumes = none := by
  have key : (outOp (buildRouteCore s r desc)).consumes
      = pruneEmptyList
          (if hasContentTypeHeader (outOp (buildRouteCore s r desc)).parameters then none
           else routeConsumes0 s r) := rfl
  rw [key, if_pos h]
  rfl

/-- C7 witness: a route whose header schema declares Content-Type. -/
theorem c7_witness :
    hasContentTypeHeader (outOp (buildRouteCore cfg0 rdC7 none)).parameters = true
  ∧ (outOp (buildRouteCore cfg0 rdC7 none)).consumes = none :=
  ⟨by decide, c7_content_type_header_removes_consumes cfg0 rdC7 none (by decide)⟩

/-- C5: normalization of function validators. A query or header function
validator is replaced by the Hidden Model object placeholder with a warning
logged; a payload function validator by the opaque object labeled Hidden
Model with a warning; a path-params function validator by null with an
error logged. -/
theorem c5_function_validator_substitution (s : Settings) (r : RouteDescriptor) :
    (r.validate.query = some .func →
       (normalizeRoute s r).1.queryParams = some hiddenModelPlaceholder ∧
       functionValidatorWarning ∈ (normalizeRoute s r).2)
  ∧ (r.validate.headers = some .func →
       (normalizeRoute s r).1.headerParams = some hiddenModelPlaceholder ∧
       functionValidatorWarning ∈ (normalizeRoute s r).2)
  ∧ (r.validate.payload = some .func →
       (normalizeRoute s r).1.payloadParams = some hiddenModelLabel ∧
       functionValidatorWarning ∈ (normalizeRoute s r).2)
  ∧ (r.validate.params = some .func →
       (normalizeRoute s r).1.pathParams = none ∧
       functionValidatorParamsError ∈ (normalizeRoute s r).2) := by
  have hlog : (normalizeRoute s r).2
      = (swapFunctionValidator "queryParams" r.validate.query).2
        ++ (swapFunctionValidator "pathParams" r.validate.params).2
        ++ (swapFunctionValidator "headerParams" r.validate.headers).2
        ++ (swapFunctionValidator "payloadParams" r.validate.payload).2 := rfl
  refine ⟨fun hq => ⟨?_, ?_⟩, fun hh => ⟨?_, ?_⟩, fun hb => ⟨?_, ?_⟩, fun hp => ⟨?_, ?_⟩⟩
  · have : (normalizeRoute s r).1.queryParams
        = (swapFunctionValidator "queryParams" r.validate.query).1 := rfl
    rw [this, hq]; rfl
  · rw [hlog, hq]
    simp [swapFunctionValidator, isFunction]
  · have : (normalizeRoute s r).1.headerParams
        = (swapFunctionValidator "headerParams" r.validate.headers).1 := rfl
    rw [this, hh]; rfl
  · rw [hlog, hh]
    simp [swapFunctionValidator, isFunction]
  · have : (normalizeRoute s r).1.payloadParams
        = (swapFunctionValidator "payloadParams" r.validate.payload).1 := rfl
    rw [this, hb]; rfl
  · rw [hlog, hb]
    simp [swapFunctionValidator, isFunction]
  · have : (normalizeRoute s r).1.pathParams
        = (swapFunctionValidator "pathParams" r.validate.params).1 := rfl
    rw [this, hp]; rfl
  · rw [hlog, hp]
    simp [swapFunctionValidator, isFunction]

/-- C5 witness: a route with every validator a custom function. -/
theorem c5_witness :
    rdescC5.validate.query = some .func
  ∧ (normalizeRoute cfg0 rdescC5).1.queryParams = some hiddenModelPlaceholder
  ∧ (normalizeRoute cfg0 rdescC5).1.headerParams = some hiddenModelPlaceholder
  ∧ (normalizeRoute cfg0 rdescC5).1.payloadParams = some hiddenModelLabel
  ∧ (normalizeRoute cfg0 rdescC5).1.pathParams = none
  ∧ functionValidatorWarning ∈ (normalizeRoute cfg0 rdescC5).2
  ∧ functionValidatorParamsError ∈ (normalizeRoute cfg0 rdescC5).2 :=
  ⟨rfl,
   ((c5_function_validator_substitution cfg0 rdescC5).1 rfl).1,
   ((c5_function_validator_substitution cfg0 rdescC5).2.1 rfl).1,
   ((c5_function_validator_substitution cfg0 rdescC5).2.2.1 rfl).1,
   ((c5_function_validator_substitution cfg0 rdescC5).2.2.2 rfl).1,
   ((c5_function_validator_substitution cfg0 rdescC5).1 rfl).2,
   ((c5_function_validator_substitution cfg0 rdescC5).2.2.2 rfl).2⟩

/-- C1 counterexample: with the resolved template /item/\x7bid\x7d and a path
schema field id carrying no explicit required flag, the emitted parameter
does NOT get required: true (the source regular expression at line 188
looks for colon placeholders /:id, which the curly template never matches):
the required field is absent, refuting the claimed required: true, and the
optional-parameter warning is logged instead. -/
theorem c1_counterexample :
    (firstOp (build cfg0 [rdescC1])).map (fun op => op.parameters.map (fun p => (p.name, p.required)))
      = some [("id", none)]
  ∧ (some [("id", (none : Option Bool))] ≠ some [("id", some true)])
  ∧ optionalPathWarning "/item/\x7bid\x7d" "id"
      ∈ ((okOf (build cfg0 [rdescC1])).map (fun x => x.2)).getD [] :=
  ⟨by decide, by decide, by decide⟩

/-- C1 (amended): for a derived path parameter with no explicit required
flag, required: true is inferred exactly when the resolved path contains the
colon placeholder /:name followed by end-of-string or a separator; in every
other case (curly \x7bname\x7d placeholders included, and optional /:name?
placeholders, which the test rejects because of the trailing question mark)
the required field stays absent from the emitted parameter and the
optional-path-parameter warning is logged. -/
theorem c1_path_required_inference (path : String) (f : SchemaField)
    (h : f.required = none) :
    buildPathParameters (some (.object none [f])) path
      = (if pathColonTest f.name path
         then ([{ projectField "path" f with required := some true }], [])
         else ([projectField "path" f], [optionalPathWarning path f.name])) := by
  by_cases hc : pathColonTest f.name path
  · simp only [if_pos hc]
    simp [buildPathParameters, hasJoiChildren, getSwaggerStructures, fromProperties,
      setPathItemRequired, projectField, h, hc]
  · simp only [if_neg hc]
    simp [buildPathParameters, hasJoiChildren, getSwaggerStructures, fromProperties,
      setPathItemRequired, projectField, h, hc]

/-- C1 witness: colon template /item/:id infers required: true. -/
theorem c1_witness :
    idField.required = none
  ∧ pathColonTest idField.name "/item/:id" = true
  ∧ buildPathParameters (some (.object none [idField])) "/item/:id"
      = (if pathColonTest idField.name "/item/:id"
         then ([{ projectField "path" idField with required := some true }], [])
         else ([projectField "path" idField], [optionalPathWarning "/item/:id" idField.name])) :=
  ⟨rfl, by decide, c1_path_required_inference "/item/:id" idField rfl⟩

/-- C8 counterexample: a route with an explicit deprecated: false, put
through build, yields an operation with no deprecated field (line 69
coerces false to null before line 258 checks it), refuting the claimed
preservation of deprecated: false. -/
theorem c8_counterexample :
    (firstOp (build cfg0 [rdescC8])).map (fun op => op.deprecated) = some none
  ∧ (some (none : Option Bool) ≠ some (some false)) :=
  ⟨by decide, by decide⟩

/-- C8 (amended): through the build pipeline the emitted operation carries a
deprecated field exactly when the input deprecated flag is true; an
explicit false, like null or absent, is coerced away by the normalizer and
omitted. -/
theorem c8_deprecated_amended (s : Settings) (r : RouteDescriptor) (desc : Option String) :
    (outOp (buildRouteCore s (normalizeRoute s r).1 desc)).deprecated
      = (if r.deprecated = some true then some true else none) := by
  have key : (outOp (buildRouteCore s (normalizeRoute s r).1 desc)).deprecated
      = jsOrNullBool r.deprecated := rfl
  rw [key]
  cases hr : r.deprecated with
  | none => simp [jsOrNullBool]
  | some b => cases b <;> simp [jsOrNullBool]

/-- C2 evaluated at the failing input: a spec-shaped route declaring
consumes with no global consumes configured. Line 63 reads the misspelled
key comsumes, so the per-route list is dropped and the emitted operation
has no consumes at all instead of the declared override. -/
theorem c2_consumes_not_overridden :
    rdescC2.consumes = some ["text/plain"]
  ∧ cfg0.consumes = none
  ∧ (firstOp (build cfg0 [rdescC2])).map (fun op => op.consumes) = some none :=
  ⟨rfl, rfl, by decide⟩

/-- C3 evaluated at the failing input: build throws on a route whose
description is a multi-line sequence (line 139 joins route.notes, which
build never sets), while a route whose four validators are all custom
functions is absorbed into a document plus four logged diagnostics. -/
theorem c3_build_throws :
    errorOf (build cfg0 [rdescC3]) = some "TypeError: route.notes is undefined"
  ∧ isOk (build cfg0 [rdescC3fn]) = true
  ∧ (((okOf (build cfg0 [rdescC3fn])).map (fun x => x.2)).getD []).length = 4 :=
  ⟨by decide, by decide, by decide⟩

/-- C4 evaluated at the failing input: an array description makes build
throw instead of joining the lines with the line-break marker; a non-array
description is passed through as-is; and a direct buildRoutes caller that
also sets notes gets the notes joined, not the description lines. -/
theorem c4_description_join_bug :
    errorOf (build cfg0 [rdescC4]) = some "TypeError: route.notes is undefined"
  ∧ (firstOp (build cfg0 [rdescC4str])).map (fun op => op.description) = some (some "as-is text")
  ∧ okOf (routeDescription rdNotesC4) = some (some "n1<br/><br/>n2") :=
  ⟨by decide, by decide, by decide⟩

/-- The accept filter keeps a list free of accept-with-enum parameters and
assigns no produces. -/
theorem acceptFilter_no_accept_enum (l : List Param)
    (h : l.all (fun p => !isAcceptEnum p) = true) : acceptFilter l = (l, none) := by
  induction l with
  | nil => rfl
  | cons p t ih =>
    rw [List.all_cons, Bool.and_eq_true] at h
    obtain ⟨hp, ht⟩ := h
    have ht' := ih ht
    by_cases hn : strToLower p.name = "accept"
    · cases henum : p.enum with
      | some e =>
        exfalso
        rw [isAcceptEnum, hn, henum] at hp
        simp at hp
      | none => simp [acceptFilter, hn, henum, ht']
    · simp [acceptFilter, hn, ht']

/-- The accept filter removes an accept parameter declaring an enum and
derives produces from its enum and default. -/
theorem acceptFilter_removes (pre post : List Param) (a : Param) (e : List String)
    (hothers : (pre ++ post).all (fun p => !isAcceptEnum p) = true)
    (hname : strToLower a.name = "accept") (he : a.enum = some e) :
    acceptFilter (pre ++ a :: post)
      = (pre ++ post, some (sortFirstItem e a.default)) := by
  induction pre with
  | nil =>
    have hpost : acceptFilter post = (post, none) :=
      acceptFilter_no_accept_enum post (by simpa using hothers)
    simp [acceptFilter, hname, he, hpost]
  | cons q pre ih =>
    rw [List.cons_append, List.all_cons, Bool.and_eq_true] at hothers
    obtain ⟨hq, ht⟩ := hothers
    have ih' := ih ht
    by_cases hn : strToLower q.name = "accept"
    · cases henum : q.enum with
      | some e2 =>
        exfalso
        rw [isAcceptEnum, hn, henum] at hq
        simp at hq
      | none => simp [acceptFilter, hn, henum, ih']
    · simp [acceptFilter, hn, ih']

/-- The accept filter keeps an accept parameter that declares no enum. -/
theorem acceptFilter_keeps (pre post : List Param) (a : Param)
    (hothers : (pre ++ post).all (fun p => !isAcceptEnum p) = true)
    (hname : strToLower a.name = "accept") (he : a.enum = none) :
    acceptFilter (pre ++ a :: post) = (pre ++ a :: post, none) := by
  induction pre with
  | nil =>
    have hpost : acceptFilter post = (post, none) :=
      acceptFilter_no_accept_enum post (by simpa using hothers)
    simp [acceptFilter, hname, he, hpost]
  | cons q pre ih =>
    rw [List.cons_append, List.all_cons, Bool.and_eq_true] at hothers
    obtain ⟨hq, ht⟩ := hothers
    have ih' := ih ht
    by_cases hn : strToLower q.name = "accept"
    · cases henum : q.enum with
      | some e2 =>
        exfalso
        rw [isAcceptEnum, hn, henum] at hq
        simp at hq
      | none => simp [acceptFilter, hn, henum, ih']
    · simp [acceptFilter, hn, ih']

/-- C9: with the acceptToProduce flag exactly true, a header parameter named
accept (case-insensitive) that declares an enum is removed from the header
parameter list and produces is derived from its enum, reordered so the
default (if any) comes first with the relative order of the rest preserved;
an accept parameter without an enum is kept; and whenever the accept rule
derived a produces list, the emitted operation carries it (after empty
pruning), overriding the value computed before. -/
theorem c9_accept_to_produce (s : Settings) (hflag : s.acceptToProduce = true) :
    (∀ (pre post : List Param) (a : Param) (e : List String),
       (pre ++ post).all (fun p => !isAcceptEnum p) = true →
       strToLower a.name = "accept" → a.enum = some e →
       applyAcceptToProduce s (pre ++ a :: post)
         = (pre ++ post, some (sortFirstItem e a.default)))
  ∧ (∀ (pre post : List Param) (a : Param),
       (pre ++ post).all (fun p => !isAcceptEnum p) = true →
       strToLower a.name = "accept" → a.enum = none →
       applyAcceptToProduce s (pre ++ a :: post) = (pre ++ a :: post, none))
  ∧ (∀ (r : RouteData) (desc : Option String) (p : List String),
       routeAcceptProduces s r = some p →
       (outOp (buildRouteCore s r desc)).produces = pruneEmptyList (some p)) := by
  refine ⟨?_, ?_, ?_⟩
  · intro pre post a e hothers hname he
    rw [applyAcceptToProduce, if_pos hflag]
    exact acceptFilter_removes pre post a e hothers hname he
  · intro pre post a hothers hname he
    rw [applyAcceptToProduce, if_pos hflag]
    exact acceptFilter_keeps pre post a hothers hname he
  · intro r desc p hp
    have key : (outOp (buildRouteCore s r desc)).produces
        = pruneEmptyList
            (match routeAcceptProduces s r with
             | some q => some q
             | none => routeProduces0 s r) := rfl
    rw [key, hp]

/-- C9 witness: a header list with an api-key parameter and an accept
parameter with enum [a, b] and default b, and the same schema on a route. -/
theorem c9_witness :
    cfgA.acceptToProduce = true
  ∧ ([xKeyParam] ++ ([] : List Param)).all (fun p => !isAcceptEnum p) = true
  ∧ strToLower acceptEnumParam.name = "accept"
  ∧ acceptEnumParam.enum = some ["a", "b"]
  ∧ applyAcceptToProduce cfgA ([xKeyParam] ++ acceptEnumParam :: [])
      = ([xKeyParam] ++ [], some (sortFirstItem ["a", "b"] acceptEnumParam.default))
  ∧ routeAcceptProduces cfgA rdC9 = some ["b", "a"]
  ∧ (outOp (buildRouteCore cfgA rdC9 none)).produces = pruneEmptyList (some ["b", "a"]) :=
  ⟨rfl, by decide, by decide, rfl,
   (c9_accept_to_produce cfgA rfl).1 [xKeyParam] [] acceptEnumParam ["a", "b"]
     (by decide) (by decide) rfl,
   by decide,
   (c9_accept_to_produce cfgA rfl).2.2 rdC9 none ["b", "a"] (by decide)⟩

/-- A successful buildRoute returns the resolved path and the lowercased
method as its first two components. -/
theorem buildRoute_key (s : Settings) (r : RouteData)
    (t : String × String × Operation × List Diagnostic) (h : buildRoute s r = .ok t) :
    t.1 = routePath s r ∧ t.2.1 = strToLower r.method := by
  rw [buildRoute] at h
  cases hd : routeDescription r with
  | error e => rw [hd] at h; simp [Except.map] at h
  | ok d =>
    rw [hd] at h
    simp only [Except.map, Except.ok.injEq] at h
    rw [← h]
    exact ⟨rfl, rfl⟩

/-- C10: when two routes resolve to the same path and lowercase method, the
document built from both equals the document built from the later route
alone (the later operation silently replaces the earlier one), and the
diagnostics are exactly the two per-route logs in order — no collision
diagnostic is added and no error is raised. -/
theorem c10_last_write_wins (s : Settings) (r1 r2 : RouteData)
    (hk : routeKey s r1 = routeKey s r2)
    (h1 : isOk (buildRoute s r1) = true) (h2 : isOk (buildRoute s r2) = true) :
    (okOf (buildRoutes s [r1, r2])).map (fun x => x.1)
      = (okOf (buildRoutes s [r2])).map (fun x => x.1)
  ∧ (okOf (buildRoutes s [r1, r2])).map (fun x => x.2)
      = some (routeLog s r1 ++ routeLog s r2) := by
  cases e1 : buildRoute s r1 with
  | error e => rw [isOk, e1] at h1; simp [okOf] at h1
  | ok t1 =>
    cases e2 : buildRoute s r2 with
    | error e => rw [isOk, e2] at h2; simp [okOf] at h2
    | ok t2 =>
      obtain ⟨k11, k12⟩ := buildRoute_key s r1 t1 e1
      obtain ⟨k21, k22⟩ := buildRoute_key s r2 t2 e2
      have hp : t1.1 = t2.1 := by
        rw [k11, k21]
        exact congrArg Prod.fst hk
      have hm : t1.2.1 = t2.2.1 := by
        rw [k12, k22]
        exact congrArg (fun q => q.2) hk
      constructor
      · simp [buildRoutes, buildRoutesAux, e1, e2, setPathOp, assoc, assocSet, okOf, hp, hm]
      · simp [buildRoutes, buildRoutesAux, e1, e2, okOf, routeLog]

/-- C10 witness: two routes with the same path and method but different
summaries. -/
theorem c10_witness :
    routeKey cfg0 rdColl1 = routeKey cfg0 rdColl2
  ∧ isOk (buildRoute cfg0 rdColl1) = true
  ∧ isOk (buildRoute cfg0 rdColl2) = true
  ∧ (okOf (buildRoutes cfg0 [rdColl1, rdColl2])).map (fun x => x.1)
      = (okOf (buildRoutes cfg0 [rdColl2])).map (fun x => x.1)
  ∧ (okOf (buildRoutes cfg0 [rdColl1, rdColl2])).map (fun x => x.2)
      = some (routeLog cfg0 rdColl1 ++ routeLog cfg0 rdColl2) :=
  ⟨by decide, by decide, by decide,
   (c10_last_write_wins cfg0 rdColl1 rdColl2 (by decide) (by decide) (by decide)).1,
   (c10_last_write_wins cfg0 rdColl1 rdColl2 (by decide) (by decide) (by decide)).2⟩

end Kox
